import Mathlib

/-!
Shallow embedding of the syscall-hook layer of sylar-from-scratch
(src/sylar/hook.cc).  The hooked entry points are modelled as pure
functions over an explicit file-descriptor-context state; the real
(kernel) syscalls, the event registration and the fiber resume outcome
are supplied by an explicit oracle, and every externally visible action
(raw syscall, timer arm/cancel, addEvent, yield, cancelEvent) is
recorded in a trace so that statements of the form "without issuing any
kernel syscall" become statements about the trace.
-/

namespace SylarHook

/- Linux errno / flag / option constants as used by hook.cc. -/

def EINTR : Nat := 4
def EBADF : Nat := 9
def EAGAIN : Nat := 11
def ETIMEDOUT : Nat := 110
def EINPROGRESS : Nat := 115
def O_NONBLOCK : Nat := 2048
def SOL_SOCKET : Nat := 1
def SO_RCVTIMEO : Nat := 20
def SO_SNDTIMEO : Nat := 21
def F_GETFL : Nat := 3
def F_SETFL : Nat := 4
def FIONBIO : Nat := 21537

/-- The uint64_t value (uint64_t)-1, used by hook.cc as the "no timeout" sentinel. -/
def UINT64_MAX : Nat := 2 ^ 64 - 1

/-- All-ones mask of a 32-bit int. -/
def mask32 : Nat := 2 ^ 32 - 1

/-- 32-bit bitwise complement, used to model the C expression arg &= ~O_NONBLOCK. -/
def not32 (x : Nat) : Nat := Nat.xor x mask32

/-- Modelled from the spec: FdCtx per-descriptor metadata (fd_manager is not
part of the provided sources; fields follow spec section 3). -/
structure FdCtx where
  is_socket : Bool
  is_closed : Bool
  sys_nonblock : Bool
  user_nonblock : Bool
  recv_timeout_ms : Nat
  send_timeout_ms : Nat
deriving DecidableEq, Repr

/-- Modelled from the spec: FdCtx::getTimeout selects the receive or send
timeout according to the SO_RCVTIMEO / SO_SNDTIMEO selector. -/
def FdCtx.getTimeout (c : FdCtx) (timeout_so : Nat) : Nat :=
  if timeout_so = SO_RCVTIMEO then c.recv_timeout_ms else c.send_timeout_ms

/-- Modelled from the spec: FdCtx::setTimeout stores a millisecond timeout
under the SO_RCVTIMEO / SO_SNDTIMEO selector. -/
def FdCtx.setTimeout (c : FdCtx) (timeout_so : Nat) (v : Nat) : FdCtx :=
  if timeout_so = SO_RCVTIMEO then { c with recv_timeout_ms := v }
  else { c with send_timeout_ms := v }

/-- Modelled from the spec: FdCtx::setUserNonblock. -/
def FdCtx.setUserNonblock (c : FdCtx) (b : Bool) : FdCtx :=
  { c with user_nonblock := b }

/-- Modelled from the spec: FdMgr, the process-wide map fd -> FdCtx,
as an association list. -/
abbrev FdMgr := List (Nat × FdCtx)

/-- Modelled from the spec: FdMgr::get without auto-create: the context for
fd, if one exists. -/
def FdMgr.get (m : FdMgr) (fd : Nat) : Option FdCtx :=
  match m with
  | [] => none
  | p :: t => if p.1 = fd then some p.2 else FdMgr.get t fd

/-- Modelled from the spec: FdMgr::del removes the context for fd. -/
def FdMgr.del (m : FdMgr) (fd : Nat) : FdMgr :=
  match m with
  | [] => []
  | p :: t => if p.1 = fd then FdMgr.del t fd else p :: FdMgr.del t fd

/-- timer_info from hook.cc: cancelled is 0 normally, else the errno to
surface. -/
structure timer_info where
  cancelled : Nat
deriving DecidableEq, Repr

/-- Externally visible actions of a hooked call, recorded as a trace. -/
inductive Action where
  | realCall        -- one invocation of the real (kernel) function
  | armTimer        -- addConditionTimer
  | cancelTimer     -- timer->cancel()
  | addEventCall    -- iom->addEvent(fd, event)
  | yieldFiber      -- Fiber::GetThis()->yield()
  | cancelEventCall -- iom->cancelEvent(fd, event)
  | soErrorCall     -- getsockopt(fd, SOL_SOCKET, SO_ERROR, ...)
deriving DecidableEq, Repr

/-- Oracle events consumed by the do_io loop: the outcome of one raw call
to the real function, or the outcome of one blocking round (addEvent
return code and the tinfo->cancelled value observed after resuming). -/
inductive OracleEv where
  | call (ret : Int) (err : Nat)
  | blocked (addRt : Int) (resumeCancelled : Nat)
deriving DecidableEq, Repr

/-- The retry loop of do_io (hook.cc lines 129-189), from the retry label
on: one raw call, an EINTR while-loop, and the EAGAIN branch that arms a
condition timer, registers the event, yields and either surfaces
tinfo->cancelled or retries.  Returns (result, errno, trace); none means
the oracle was exhausted or ill-shaped. -/
def do_io_loop (tmo : Nat) : List OracleEv → Option (Int × Nat × List Action)
  | [] => none
  | OracleEv.blocked _ _ :: _ => none
  | OracleEv.call n err :: rest =>
    if n = -1 ∧ err = EINTR then
      (do_io_loop tmo rest).map (fun r => (r.1, r.2.1, Action.realCall :: r.2.2))
    else if n = -1 ∧ err = EAGAIN then
      match rest with
      | OracleEv.blocked rt c :: rest2 =>
        let armed : Bool := tmo != UINT64_MAX
        let tr0 : List Action :=
          Action.realCall :: ((if armed then [Action.armTimer] else []) ++ [Action.addEventCall])
        if rt ≠ 0 then
          some (-1, err, tr0 ++ (if armed then [Action.cancelTimer] else []))
        else
          let tr1 : List Action :=
            tr0 ++ [Action.yieldFiber] ++ (if armed then [Action.cancelTimer] else [])
          if c ≠ 0 then some (-1, c, tr1)
          else (do_io_loop tmo rest2).map (fun r => (r.1, r.2.1, tr1 ++ r.2.2))
      | _ => none
    else
      some (n, err, [Action.realCall])

/-- Delegation to the real function: one raw call whose outcome is the
head of the oracle. -/
def delegateCall : List OracleEv → Option (Int × Nat × List Action)
  | OracleEv.call n err :: _ => some (n, err, [Action.realCall])
  | _ => none

/-- do_io (hook.cc lines 100-190): hook-enable gate, FdCtx dispatch
(absent context delegates, closed context returns EBADF, non-socket or
user-nonblocking context delegates), then the retry loop with the
context timeout. -/
def do_io (hook_enable : Bool) (ctx : Option FdCtx) (timeout_so : Nat)
    (oracle : List OracleEv) : Option (Int × Nat × List Action) :=
  if hook_enable = false then delegateCall oracle
  else
    match ctx with
    | none => delegateCall oracle
    | some c =>
      if c.is_closed then some (-1, EBADF, [])
      else if c.is_socket = false ∨ c.user_nonblock = true then delegateCall oracle
      else do_io_loop (c.getTimeout timeout_so) oracle

/-- close (hook.cc lines 421-435): when the hook is enabled and a context
exists, cancelAll is issued and the context is removed from the manager;
the real close is always called.  Returns the new manager and whether
cancelAll ran. -/
def close_hook (hook_enable : Bool) (m : FdMgr) (fd : Nat) : FdMgr × Bool :=
  if hook_enable = false then (m, false)
  else
    match m.get fd with
    | some _ => (m.del fd, true)
    | none => (m, false)

/-- The body of the condition-timer callback armed by do_io (hook.cc lines
145-153) and by connect_with_timeout (lines 319-326): the input is the
result of winfo.lock().  Returns the timer_info afterwards and the trace
of actions. -/
def cond_timer_cb (winfo : Option timer_info) : Option timer_info × List Action :=
  match winfo with
  | none => (none, [])
  | some t =>
    if t.cancelled ≠ 0 then (some t, [])
    else (some { cancelled := ETIMEDOUT }, [Action.cancelEventCall])

/-- External outcomes consumed by connect_with_timeout: the real connect
result and errno, the addEvent return code, the tinfo->cancelled value
observed after resuming, and the SO_ERROR probe (getsockopt return value
and the error it reports). -/
structure ConnectEnv where
  connect_ret : Int
  connect_err : Nat
  addEvent_rt : Int
  resume_cancelled : Nat
  so_get_ret : Int
  so_error : Nat
deriving DecidableEq, Repr

/-- The SO_ERROR epilogue of connect_with_timeout (hook.cc lines 346-356):
probe SO_ERROR; if the probe itself fails return -1, if the error is zero
return 0, otherwise surface it in errno.  e is the errno value in effect
before the probe. -/
def so_error_check (e : Nat) (env : ConnectEnv) (tr : List Action) : Int × Nat × List Action :=
  if env.so_get_ret = -1 then (-1, e, tr ++ [Action.soErrorCall])
  else if env.so_error = 0 then (0, e, tr ++ [Action.soErrorCall])
  else (-1, env.so_error, tr ++ [Action.soErrorCall])

/-- connect_with_timeout (hook.cc lines 288-357): hook gate; absent or
closed context is EBADF with no real connect; non-socket or
user-nonblocking delegates; a real connect that succeeds or fails with
anything but EINPROGRESS is returned as-is; otherwise timer arm (when the
timeout is not the sentinel), addEvent, yield-and-resume or the
addEvent-failure path, then the SO_ERROR epilogue. -/
def connect_with_timeout (hook_enable : Bool) (ctx : Option FdCtx)
    (timeout_ms : Nat) (env : ConnectEnv) : Int × Nat × List Action :=
  if hook_enable = false then (env.connect_ret, env.connect_err, [Action.realCall])
  else
    match ctx with
    | none => (-1, EBADF, [])
    | some c =>
      if c.is_closed then (-1, EBADF, [])
      else if c.is_socket = false then (env.connect_ret, env.connect_err, [Action.realCall])
      else if c.user_nonblock = true then (env.connect_ret, env.connect_err, [Action.realCall])
      else if env.connect_ret = 0 then (0, env.connect_err, [Action.realCall])
      else if env.connect_ret ≠ -1 ∨ env.connect_err ≠ EINPROGRESS then
        (env.connect_ret, env.connect_err, [Action.realCall])
      else
        let armed : Bool := timeout_ms != UINT64_MAX
        let tr0 : List Action :=
          Action.realCall :: ((if armed then [Action.armTimer] else []) ++ [Action.addEventCall])
        if env.addEvent_rt = 0 then
          let tr1 : List Action :=
            tr0 ++ [Action.yieldFiber] ++ (if armed then [Action.cancelTimer] else [])
          if env.resume_cancelled ≠ 0 then (-1, env.resume_cancelled, tr1)
          else so_error_check env.connect_err env tr1
        else
          so_error_check env.connect_err env (tr0 ++ (if armed then [Action.cancelTimer] else []))

/-- Result of a modelled fcntl call: the FdCtx afterwards, the kernel-side
status flags afterwards, and the return value. -/
structure FcntlRes where
  ctx : Option FdCtx
  kflags : Nat
  ret : Int
deriving DecidableEq, Repr

/-- fcntl (hook.cc lines 442-527) for the F_SETFL and F_GETFL commands;
every other command is a pure pass-through with no FdCtx effect.  The
real fcntl is modelled by kflags: F_SETFL stores its argument there and
returns 0, F_GETFL returns it.  Note the source never consults the
per-thread hook-enable flag in fcntl, so the first parameter is unused. -/
def fcntl_hook (_hook_enable : Bool) (ctx : Option FdCtx) (kflags : Nat)
    (cmd : Nat) (arg : Nat) : FcntlRes :=
  if cmd = F_SETFL then
    match ctx with
    | none => { ctx := none, kflags := arg, ret := 0 }
    | some c =>
      if c.is_closed ∨ c.is_socket = false then { ctx := some c, kflags := arg, ret := 0 }
      else
        let c2 := c.setUserNonblock (arg &&& O_NONBLOCK != 0)
        let arg2 := if c2.sys_nonblock then arg ||| O_NONBLOCK else arg &&& not32 O_NONBLOCK
        { ctx := some c2, kflags := arg2, ret := 0 }
  else if cmd = F_GETFL then
    match ctx with
    | none => { ctx := none, kflags := kflags, ret := Int.ofNat kflags }
    | some c =>
      if c.is_closed ∨ c.is_socket = false then
        { ctx := some c, kflags := kflags, ret := Int.ofNat kflags }
      else if c.user_nonblock then
        { ctx := some c, kflags := kflags, ret := Int.ofNat (kflags ||| O_NONBLOCK) }
      else
        { ctx := some c, kflags := kflags, ret := Int.ofNat (kflags &&& not32 O_NONBLOCK) }
  else
    { ctx := ctx, kflags := kflags, ret := 0 }

/-- ioctl (hook.cc lines 534-549): for FIONBIO on a live socket context the
user-nonblock bit is recorded from *arg, then the real ioctl is always
invoked and its result returned unchanged.  The source never consults the
per-thread hook-enable flag in ioctl, so the first parameter is unused. -/
def ioctl_hook (_hook_enable : Bool) (ctx : Option FdCtx) (request : Nat)
    (argv : Int) (realRet : Int) : Option FdCtx × Int :=
  if request = FIONBIO then
    match ctx with
    | none => (none, realRet)
    | some c =>
      if c.is_closed ∨ c.is_socket = false then (some c, realRet)
      else (some (c.setUserNonblock (argv != 0)), realRet)
  else (ctx, realRet)

/-- A timeval; fields modelled as the nonnegative values a caller passes
for SO_RCVTIMEO / SO_SNDTIMEO. -/
structure Timeval where
  tv_sec : Nat
  tv_usec : Nat
deriving DecidableEq, Repr

/-- setsockopt (hook.cc lines 565-579): hook gate, then for SOL_SOCKET with
SO_RCVTIMEO or SO_SNDTIMEO and an existing context, the timeval is cached
on the FdCtx in milliseconds; the real setsockopt result is returned
unchanged in every case. -/
def setsockopt_hook (hook_enable : Bool) (ctx : Option FdCtx)
    (level : Nat) (optname : Nat) (v : Timeval) (realRet : Int) : Option FdCtx × Int :=
  if hook_enable = false then (ctx, realRet)
  else if level = SOL_SOCKET ∧ (optname = SO_RCVTIMEO ∨ optname = SO_SNDTIMEO) then
    match ctx with
    | none => (none, realRet)
    | some c => (some (c.setTimeout optname (v.tv_sec * 1000 + v.tv_usec / 1000)), realRet)
  else (ctx, realRet)

/-- A live socket context with default (infinite) timeouts, as produced by
lazy FdCtx initialization on a blocking socket. -/
def ctx0 : FdCtx :=
  { is_socket := true, is_closed := false, sys_nonblock := true,
    user_nonblock := false, recv_timeout_ms := UINT64_MAX, send_timeout_ms := UINT64_MAX }

/-- A context whose FdCtx reports closed. -/
def ctxClosed : FdCtx := { ctx0 with is_closed := true }

/-- A live socket context on which the user requested non-blocking mode. -/
def ctxUserNB : FdCtx := { ctx0 with user_nonblock := true }

/-- The trace of an EAGAIN round of do_io that registered its event,
yielded and resumed: raw call, timer arm (when the timeout is not the
sentinel), addEvent, yield, timer cancel (when armed). -/
def eagainYieldTr (tmo : Nat) : List Action :=
  Action.realCall :: ((if tmo != UINT64_MAX then [Action.armTimer] else [])
      ++ [Action.addEventCall])
    ++ [Action.yieldFiber] ++ (if tmo != UINT64_MAX then [Action.cancelTimer] else [])

/-- The trace of an EAGAIN round (of do_io) or of the in-progress branch
(of connect_with_timeout) whose addEvent failed: raw call, timer arm
(when armed), addEvent, timer cancel (when armed), and no yield. -/
def addEventFailTr (tmo : Nat) : List Action :=
  Action.realCall :: ((if tmo != UINT64_MAX then [Action.armTimer] else [])
      ++ [Action.addEventCall])
    ++ (if tmo != UINT64_MAX then [Action.cancelTimer] else [])

/-- The external outcomes used by the C4 and C5 counterexamples and several
witnesses: in-progress connect, failing addEvent, SO_ERROR probe
reporting no error. -/
def envAddFail : ConnectEnv :=
  { connect_ret := -1, connect_err := EINPROGRESS, addEvent_rt := 1,
    resume_cancelled := 0, so_get_ret := 0, so_error := 0 }

theorem FdMgr.get_del_self (m : FdMgr) (fd : Nat) : (m.del fd).get fd = none := by
  induction m with
  | nil => rfl
  | cons p t ih =>
    by_cases h : p.1 = fd
    · simpa [FdMgr.del, h] using ih
    · simpa [FdMgr.del, FdMgr.get, h] using ih

theorem close_then_get_none (m : FdMgr) (fd : Nat) :
    (close_hook true m fd).1.get fd = none := by
  unfold close_hook
  rcases h : m.get fd with _ | c
  · simpa using h
  · simpa using FdMgr.get_del_self m fd

/-- C1, counterexample.  On the manager holding a live socket context for
fd 3, the hooked close removes the context; the next do_io-routed hooked
call on fd 3 then finds no FdCtx and delegates: it issues the real
syscall and returns its (successful) result, instead of returning -1 with
errno = EBADF without a kernel syscall. -/
theorem C1_counterexample :
    (close_hook true [(3, ctx0)] 3).1.get 3 = none ∧
    do_io true ((close_hook true [(3, ctx0)] 3).1.get 3) SO_RCVTIMEO [OracleEv.call 0 0]
      = some (0, 0, [Action.realCall]) := by
  decide

/-- C1, amended.  After the hooked close(f) on a hook-enabled thread, no
FdCtx remains for f, so a subsequent do_io-routed hooked call delegates
to the real function (a kernel syscall is issued and its result returned
unchanged); a hooked connect on f does return -1 with errno = EBADF
without invoking the real connect (empty trace); and a do_io-routed call
returns -1 / EBADF without a syscall exactly when a context still exists
and reports closed. -/
theorem C1_amended_thm (m : FdMgr) (fd : Nat) (tso : Nat) (n : Int) (err : Nat)
    (rest : List OracleEv) (tm : Nat) (env : ConnectEnv) (c : FdCtx) :
    (close_hook true m fd).1.get fd = none ∧
    do_io true ((close_hook true m fd).1.get fd) tso (OracleEv.call n err :: rest)
      = some (n, err, [Action.realCall]) ∧
    connect_with_timeout true ((close_hook true m fd).1.get fd) tm env = (-1, EBADF, []) ∧
    (c.is_closed = true → do_io true (some c) tso (OracleEv.call n err :: rest)
      = some (-1, EBADF, [])) := by
  refine ⟨close_then_get_none m fd, ?_, ?_, ?_⟩
  · rw [close_then_get_none m fd]; rfl
  · rw [close_then_get_none m fd]; rfl
  · intro h
    simp [do_io, h]

/-- C1, amended, witness. -/
theorem C1_amended_witness :
    do_io true (some ctxClosed) SO_RCVTIMEO [OracleEv.call 0 0] = some (-1, EBADF, []) :=
  (C1_amended_thm [] 3 SO_RCVTIMEO 0 0 [] 5000
    { connect_ret := 0, connect_err := 0, addEvent_rt := 0,
      resume_cancelled := 0, so_get_ret := 0, so_error := 0 } ctxClosed).2.2.2 rfl

/-- C3 (confirmed).  do_io with the hook enabled: an absent FdCtx delegates
to the real function (one raw call, result returned unchanged); a context
reporting closed returns -1 with errno = EBADF and an empty trace (no
kernel syscall); a live context that is not a socket, or on which the
user set non-blocking mode, delegates to the real function. -/
theorem C3_dispatch_thm (tso : Nat) (n : Int) (err : Nat)
    (rest oracle : List OracleEv) (c : FdCtx) :
    do_io true none tso (OracleEv.call n err :: rest) = some (n, err, [Action.realCall]) ∧
    (c.is_closed = true → do_io true (some c) tso oracle = some (-1, EBADF, [])) ∧
    (c.is_closed = false → (c.is_socket = false ∨ c.user_nonblock = true) →
      do_io true (some c) tso (OracleEv.call n err :: rest)
        = some (n, err, [Action.realCall])) := by
  refine ⟨rfl, ?_, ?_⟩
  · intro h; simp [do_io, h]
  · intro h1 h2; simp [do_io, h1, h2, delegateCall]

/-- C3, witness. -/
theorem C3_dispatch_witness :
    do_io true (some ctxClosed) SO_RCVTIMEO [] = some (-1, EBADF, []) ∧
    do_io true (some ctxUserNB) SO_RCVTIMEO [OracleEv.call 7 0]
      = some (7, 0, [Action.realCall]) :=
  ⟨(C3_dispatch_thm SO_RCVTIMEO 7 0 [OracleEv.call 7 0] [] ctxClosed).2.1 rfl,
   (C3_dispatch_thm SO_RCVTIMEO 7 0 [OracleEv.call 7 0] [] ctxUserNB).2.2 rfl (Or.inr rfl)⟩

/-- C8 (confirmed).  The condition-timer callback of do_io and
connect_with_timeout: when the weak reference fails to upgrade it leaves
no observable action; when cancelled is already non-zero it changes
nothing and performs no action; otherwise it sets cancelled = ETIMEDOUT
and calls cancelEvent exactly once. -/
theorem C8_timer_cb_thm (t : timer_info) :
    cond_timer_cb none = (none, []) ∧
    (t.cancelled ≠ 0 → cond_timer_cb (some t) = (some t, [])) ∧
    (t.cancelled = 0 → cond_timer_cb (some t)
      = (some { cancelled := ETIMEDOUT }, [Action.cancelEventCall])) := by
  refine ⟨rfl, ?_, ?_⟩
  · intro h; simp [cond_timer_cb, h]
  · intro h; simp [cond_timer_cb, h]

/-- C8, witness. -/
theorem C8_timer_cb_witness :
    cond_timer_cb (some { cancelled := 110 }) = (some { cancelled := 110 }, []) ∧
    cond_timer_cb (some { cancelled := 0 })
      = (some { cancelled := ETIMEDOUT }, [Action.cancelEventCall]) :=
  ⟨(C8_timer_cb_thm { cancelled := 110 }).2.1 (by decide),
   (C8_timer_cb_thm { cancelled := 0 }).2.2 rfl⟩

/-- C9 (confirmed).  With the hook enabled, connect_with_timeout on an fd
with no FdCtx, or whose FdCtx reports closed, returns -1 with errno =
EBADF and an empty trace (the real connect is never invoked); by
contrast do_io with no FdCtx delegates to the real function. -/
theorem C9_connect_ebadf_thm (env : ConnectEnv) (tm tso : Nat) (c : FdCtx)
    (n : Int) (err : Nat) (rest : List OracleEv) :
    connect_with_timeout true none tm env = (-1, EBADF, []) ∧
    (c.is_closed = true → connect_with_timeout true (some c) tm env = (-1, EBADF, [])) ∧
    do_io true none tso (OracleEv.call n err :: rest) = some (n, err, [Action.realCall]) := by
  refine ⟨rfl, ?_, rfl⟩
  intro h; simp [connect_with_timeout, h]

/-- C9, witness. -/
theorem C9_connect_ebadf_witness :
    connect_with_timeout true (some ctxClosed) 5000
      { connect_ret := 0, connect_err := 0, addEvent_rt := 0,
        resume_cancelled := 0, so_get_ret := 0, so_error := 0 } = (-1, EBADF, []) :=
  (C9_connect_ebadf_thm
    { connect_ret := 0, connect_err := 0, addEvent_rt := 0,
      resume_cancelled := 0, so_get_ret := 0, so_error := 0 }
    5000 SO_RCVTIMEO ctxClosed 0 0 []).2.1 rfl

/-- C10 (confirmed).  With the hook enabled, setsockopt with level
SOL_SOCKET and optname SO_RCVTIMEO or SO_SNDTIMEO on an fd that has an
FdCtx stores tv_sec*1000 + tv_usec/1000 milliseconds on the context for
every possible result of the real setsockopt (so in particular also when
the real call fails with -1), and returns exactly the real result; the
stored value is what getTimeout subsequently reports for that selector. -/
theorem C10_setsockopt_thm (c : FdCtx) (optname : Nat) (v : Timeval) (realRet : Int)
    (h : optname = SO_RCVTIMEO ∨ optname = SO_SNDTIMEO) :
    setsockopt_hook true (some c) SOL_SOCKET optname v realRet
      = (some (c.setTimeout optname (v.tv_sec * 1000 + v.tv_usec / 1000)), realRet) ∧
    (c.setTimeout optname (v.tv_sec * 1000 + v.tv_usec / 1000)).getTimeout optname
      = v.tv_sec * 1000 + v.tv_usec / 1000 := by
  constructor
  · simp [setsockopt_hook, h]
  · rcases h with h | h <;> subst h <;>
      simp [FdCtx.setTimeout, FdCtx.getTimeout, SO_RCVTIMEO, SO_SNDTIMEO]

/-- C10, witness: the cache is updated and the real result returned even
when the real setsockopt fails. -/
theorem C10_setsockopt_witness :
    setsockopt_hook true (some ctx0) SOL_SOCKET SO_RCVTIMEO
        { tv_sec := 3, tv_usec := 2500 } (-1)
      = (some (ctx0.setTimeout SO_RCVTIMEO 3002), -1) ∧
    (ctx0.setTimeout SO_RCVTIMEO 3002).getTimeout SO_RCVTIMEO = 3002 :=
  C10_setsockopt_thm ctx0 SO_RCVTIMEO { tv_sec := 3, tv_usec := 2500 } (-1) (Or.inl rfl)

/-- One EINTR outcome of the raw call makes the do_io retry loop call
again immediately, only adding the raw call to the trace. -/
theorem do_io_loop_eintr (tmo : Nat) (l : List OracleEv) :
    do_io_loop tmo (OracleEv.call (-1) EINTR :: l)
      = (do_io_loop tmo l).map (fun r => (r.1, r.2.1, Action.realCall :: r.2.2)) := by
  cases l with
  | nil => simp [do_io_loop, EINTR]
  | cons e t => cases e <;> simp [do_io_loop, EINTR]

/-- C2 (confirmed).  In the do_io retry loop, after the raw call fails
with EAGAIN, the event is registered (addEvent returning 0) and the
fiber yields; on resume the condition timer is cancelled exactly when one
was armed (timeout not the sentinel); if the observed tinfo cancelled
value is non-zero the call returns -1 with errno set to that value;
otherwise the raw call is retried on the remaining oracle, the resumed
round contributing only its trace prefix. -/
theorem C2_resume_thm (tmo : Nat) (rest : List OracleEv) (c : Nat) :
    (c ≠ 0 → do_io_loop tmo (OracleEv.call (-1) EAGAIN :: OracleEv.blocked 0 c :: rest)
        = some (-1, c, eagainYieldTr tmo)) ∧
    (c = 0 → do_io_loop tmo (OracleEv.call (-1) EAGAIN :: OracleEv.blocked 0 c :: rest)
        = (do_io_loop tmo rest).map (fun r => (r.1, r.2.1, eagainYieldTr tmo ++ r.2.2))) ∧
    (tmo ≠ UINT64_MAX → Action.cancelTimer ∈ eagainYieldTr tmo) ∧
    (tmo = UINT64_MAX → Action.cancelTimer ∉ eagainYieldTr tmo) ∧
    Action.yieldFiber ∈ eagainYieldTr tmo := by
  refine ⟨?_, ?_, ?_, ?_, ?_⟩
  · intro h
    simp [do_io_loop, EAGAIN, EINTR, h, eagainYieldTr]
  · intro h
    subst h
    simp [do_io_loop, EAGAIN, EINTR, eagainYieldTr]
  · intro h
    have hb : (tmo != UINT64_MAX) = true := by simpa using h
    simp [eagainYieldTr, hb]
  · intro h
    have hb : (tmo != UINT64_MAX) = false := by simpa using h
    simp [eagainYieldTr, hb]
  · by_cases h : tmo = UINT64_MAX
    · have hb : (tmo != UINT64_MAX) = false := by simpa using h
      simp [eagainYieldTr, hb]
    · have hb : (tmo != UINT64_MAX) = true := by simpa using h
      simp [eagainYieldTr, hb]

/-- C2, witness. -/
theorem C2_resume_witness :
    do_io_loop 100 [OracleEv.call (-1) EAGAIN, OracleEv.blocked 0 110]
      = some (-1, 110, eagainYieldTr 100) ∧
    Action.cancelTimer ∈ eagainYieldTr 100 :=
  ⟨(C2_resume_thm 100 [] 110).1 (by decide),
   (C2_resume_thm 100 [] 110).2.2.1 (by decide)⟩

/-- C4, counterexample.  ioctl(FIONBIO) with the per-thread hook-enable
flag false, on a live socket fd whose FdCtx has user_nonblock unset,
writes user_nonblock = true into the FdCtx: the hook does not delegate
unchanged when the flag is false, it reads and writes FdCtx state. -/
theorem C4_counterexample :
    (ioctl_hook false (some ctx0) FIONBIO 1 7).1 = some (ctx0.setUserNonblock true) ∧
    ctx0.user_nonblock = false ∧
    (ioctl_hook false (some ctx0) FIONBIO 1 7).1 ≠ some ctx0 := by
  decide

/-- C4, amended.  When the per-thread hook-enable flag is false, setsockopt
(like do_io, connect_with_timeout and close, which gate on the flag)
delegates to the real implementation and returns its result with no FdCtx
effect; fcntl and ioctl however never consult the flag: they behave
identically whether it is false or true, and ioctl(FIONBIO) with a
non-zero argument on a live socket records user_nonblock on the FdCtx
even with the flag false. -/
theorem C4_amended_thm (ctx : Option FdCtx) (level optname : Nat) (v : Timeval)
    (r : Int) (kfl cmd arg req : Nat) (av : Int) (c : FdCtx) (m : FdMgr) (fd : Nat)
    (tso : Nat) (oracle : List OracleEv) (tm : Nat) (env : ConnectEnv)
    (hc : c.is_closed = false) (hs : c.is_socket = true) (ha : av ≠ 0) :
    setsockopt_hook false ctx level optname v r = (ctx, r) ∧
    do_io false (some c) tso oracle = delegateCall oracle ∧
    connect_with_timeout false (some c) tm env
      = (env.connect_ret, env.connect_err, [Action.realCall]) ∧
    close_hook false m fd = (m, false) ∧
    fcntl_hook false ctx kfl cmd arg = fcntl_hook true ctx kfl cmd arg ∧
    ioctl_hook false ctx req av r = ioctl_hook true ctx req av r ∧
    (ioctl_hook false (some c) FIONBIO av r).1 = some (c.setUserNonblock true) := by
  refine ⟨rfl, rfl, rfl, rfl, rfl, rfl, ?_⟩
  have hb : (av != 0) = true := by simpa using ha
  simp [ioctl_hook, hc, hs, hb]

/-- C4, amended, witness. -/
theorem C4_amended_witness :
    setsockopt_hook false (some ctx0) SOL_SOCKET SO_RCVTIMEO
        { tv_sec := 3, tv_usec := 2500 } (-1) = (some ctx0, -1) ∧
    (ioctl_hook false (some ctx0) FIONBIO 1 7).1 = some (ctx0.setUserNonblock true) :=
  ⟨(C4_amended_thm (some ctx0) SOL_SOCKET SO_RCVTIMEO { tv_sec := 3, tv_usec := 2500 }
      (-1) 0 0 0 FIONBIO 1 ctx0 [] 3 SO_RCVTIMEO [] 5000 envAddFail rfl rfl
      (by decide)).1,
   (C4_amended_thm (some ctx0) SOL_SOCKET SO_RCVTIMEO { tv_sec := 3, tv_usec := 2500 }
      (-1) 0 0 0 FIONBIO 1 ctx0 [] 3 SO_RCVTIMEO [] 5000 envAddFail rfl rfl
      (by decide)).2.2.2.2.2.2⟩

/-- C5, counterexample.  In connect_with_timeout with the hook enabled, a
live blocking socket, an in-progress real connect and a failing addEvent
(non-zero return), the armed condition timer is cancelled but the caller
does not see -1: the code falls through to the SO_ERROR probe, which
reports no error here, so the call returns 0. -/
theorem C5_counterexample :
    envAddFail.addEvent_rt ≠ 0 ∧
    (connect_with_timeout true (some ctx0) 5000 envAddFail).1 = 0 ∧
    Action.cancelTimer ∈ (connect_with_timeout true (some ctx0) 5000 envAddFail).2.2 := by
  decide

/-- C5, amended.  When addEvent returns non-zero in the do_io retry loop,
the armed condition timer (if any) is cancelled and the caller sees -1;
when addEvent returns non-zero in connect_with_timeout, the armed
condition timer (if any) is cancelled but the call proceeds to the
SO_ERROR epilogue, whose result the caller sees: 0 when the probe
succeeds and reports no error, -1 otherwise. -/
theorem C5_amended_thm (tmo : Nat) (rest : List OracleEv) (rt : Int) (c2 : Nat)
    (c : FdCtx) (tm : Nat) (env : ConnectEnv) (tr : List Action)
    (hc : c.is_closed = false) (hs : c.is_socket = true) (hu : c.user_nonblock = false) :
    (rt ≠ 0 → do_io_loop tmo (OracleEv.call (-1) EAGAIN :: OracleEv.blocked rt c2 :: rest)
        = some (-1, EAGAIN, addEventFailTr tmo)) ∧
    (tmo ≠ UINT64_MAX → Action.cancelTimer ∈ addEventFailTr tmo) ∧
    (env.connect_ret = -1 → env.connect_err = EINPROGRESS → env.addEvent_rt ≠ 0 →
      connect_with_timeout true (some c) tm env
        = so_error_check EINPROGRESS env (addEventFailTr tm)) ∧
    (env.so_get_ret ≠ -1 → env.so_error = 0 → (so_error_check EINPROGRESS env tr).1 = 0) ∧
    (env.so_get_ret ≠ -1 → env.so_error ≠ 0 →
      so_error_check EINPROGRESS env tr = (-1, env.so_error, tr ++ [Action.soErrorCall])) := by
  refine ⟨?_, ?_, ?_, ?_, ?_⟩
  · intro h
    simp [do_io_loop, EAGAIN, EINTR, h, addEventFailTr]
  · intro h
    have hb : (tmo != UINT64_MAX) = true := by simpa using h
    simp [addEventFailTr, hb]
  · intro h1 h2 h3
    simp [connect_with_timeout, hc, hs, hu, h1, h2, h3, addEventFailTr, EINPROGRESS]
  · intro h1 h2
    simp [so_error_check, h1, h2]
  · intro h1 h2
    simp [so_error_check, h1, h2]

/-- C5, amended, witness. -/
theorem C5_amended_witness :
    do_io_loop 100 [OracleEv.call (-1) EAGAIN, OracleEv.blocked 3 0]
      = some (-1, EAGAIN, addEventFailTr 100) ∧
    Action.cancelTimer ∈ addEventFailTr 100 ∧
    connect_with_timeout true (some ctx0) 5000 envAddFail
      = so_error_check EINPROGRESS envAddFail (addEventFailTr 5000) ∧
    (so_error_check EINPROGRESS envAddFail (addEventFailTr 5000)).1 = 0 :=
  ⟨(C5_amended_thm 100 [] 3 0 ctx0 5000 envAddFail (addEventFailTr 5000)
      rfl rfl rfl).1 (by decide),
   (C5_amended_thm 100 [] 3 0 ctx0 5000 envAddFail (addEventFailTr 5000)
      rfl rfl rfl).2.1 (by decide),
   (C5_amended_thm 100 [] 3 0 ctx0 5000 envAddFail (addEventFailTr 5000)
      rfl rfl rfl).2.2.1 rfl rfl (by decide),
   (C5_amended_thm 100 [] 3 0 ctx0 5000 envAddFail (addEventFailTr 5000)
      rfl rfl rfl).2.2.2.1 (by decide) rfl⟩

/-- C6 (confirmed).  In the do_io retry loop, as long as the raw call
returns -1 with errno = EINTR it is repeated immediately: the k EINTR
results contribute exactly k raw calls to the trace, with no timer, no
event registration and no yield in between, and the eventual non-EINTR
outcome is then processed by the same loop on the remaining oracle. -/
theorem C6_eintr_thm (tmo k : Nat) (rest : List OracleEv) :
    do_io_loop tmo (List.replicate k (OracleEv.call (-1) EINTR) ++ rest)
      = (do_io_loop tmo rest).map
          (fun r => (r.1, r.2.1, List.replicate k Action.realCall ++ r.2.2)) ∧
    Action.yieldFiber ∉ List.replicate k Action.realCall ∧
    Action.addEventCall ∉ List.replicate k Action.realCall ∧
    Action.armTimer ∉ List.replicate k Action.realCall := by
  refine ⟨?_, ?_, ?_, ?_⟩
  · induction k with
    | zero =>
      simp only [List.replicate_zero, List.nil_append]
      cases h : do_io_loop tmo rest <;> simp [h]
    | succ k ih =>
      rw [List.replicate_succ, List.cons_append, do_io_loop_eintr, ih]
      cases h : do_io_loop tmo rest <;> simp [h, List.replicate_succ]
  · simp [List.mem_replicate]
  · simp [List.mem_replicate]
  · simp [List.mem_replicate]

/-- C6, witness. -/
theorem C6_eintr_witness :
    do_io_loop 100 (List.replicate 2 (OracleEv.call (-1) EINTR) ++ [OracleEv.call 5 0])
      = (do_io_loop 100 [OracleEv.call 5 0]).map
          (fun r => (r.1, r.2.1, List.replicate 2 Action.realCall ++ r.2.2)) :=
  (C6_eintr_thm 100 2 [OracleEv.call 5 0]).1

/-- (a ||| b) &&& b = b: setting a flag then masking by it yields it. -/
theorem lor_land_self (a b : Nat) : (a ||| b) &&& b = b := by
  apply Nat.eq_of_testBit_eq
  intro i
  simp [Nat.testBit_land, Nat.testBit_lor]
  cases Nat.testBit b i <;> simp

/-- Clearing O_NONBLOCK through the 32-bit complement mask leaves no
O_NONBLOCK bit. -/
theorem land_not32_O_NONBLOCK (a : Nat) :
    (a &&& not32 O_NONBLOCK) &&& O_NONBLOCK = 0 := by
  have h0 : not32 O_NONBLOCK &&& O_NONBLOCK = 0 := by decide
  rw [Nat.land_assoc, h0]
  simp

/-- On a live socket context, fcntl(F_SETFL, a) records the O_NONBLOCK bit
of a as the user-nonblock view. -/
theorem fcntl_setfl_ctx (c : FdCtx) (kf a : Nat)
    (h1 : c.is_socket = true) (h2 : c.is_closed = false) :
    (fcntl_hook true (some c) kf F_SETFL a).ctx
      = some (c.setUserNonblock (a &&& O_NONBLOCK != 0)) := by
  simp [fcntl_hook, h1, h2]

/-- On a live socket context, the O_NONBLOCK bit of the fcntl(F_GETFL)
answer is determined by user_nonblock alone, whatever the kernel-side
flags are. -/
theorem fcntl_getfl_bit (c : FdCtx) (kf2 : Nat)
    (h1 : c.is_socket = true) (h2 : c.is_closed = false) :
    (fcntl_hook true (some c) kf2 F_GETFL 0).ret.toNat &&& O_NONBLOCK
      = if c.user_nonblock then O_NONBLOCK else 0 := by
  by_cases hu : c.user_nonblock <;>
    simp [fcntl_hook, h1, h2, hu, F_GETFL, F_SETFL, lor_land_self,
      land_not32_O_NONBLOCK]

/-- C7 (confirmed).  For every live socket fd with an FdCtx, after
fcntl(F_SETFL, flags | O_NONBLOCK) a subsequent fcntl(F_GETFL) returns a
value whose O_NONBLOCK bit is set, and after fcntl(F_SETFL,
flags & ~O_NONBLOCK) the returned value has the O_NONBLOCK bit clear —
for arbitrary kernel-side status flags kf2 at the time of the F_GETFL, so
the answer reflects the recorded user view, not the kernel flag. -/
theorem C7_fcntl_thm (c : FdCtx) (kf arg kf2 : Nat)
    (h1 : c.is_socket = true) (h2 : c.is_closed = false) :
    ((fcntl_hook true (fcntl_hook true (some c) kf F_SETFL (arg ||| O_NONBLOCK)).ctx
        kf2 F_GETFL 0).ret.toNat &&& O_NONBLOCK ≠ 0) ∧
    ((fcntl_hook true (fcntl_hook true (some c) kf F_SETFL (arg &&& not32 O_NONBLOCK)).ctx
        kf2 F_GETFL 0).ret.toNat &&& O_NONBLOCK = 0) := by
  constructor
  · have hb : ((arg ||| O_NONBLOCK) &&& O_NONBLOCK != 0) = true := by
      simp [lor_land_self, O_NONBLOCK]
    have hctx : (fcntl_hook true (some c) kf F_SETFL (arg ||| O_NONBLOCK)).ctx
        = some (c.setUserNonblock true) := by
      rw [fcntl_setfl_ctx c kf _ h1 h2, hb]
    rw [hctx, fcntl_getfl_bit (c.setUserNonblock true) kf2 h1 h2]
    simp [FdCtx.setUserNonblock, O_NONBLOCK]
  · have hb : ((arg &&& not32 O_NONBLOCK) &&& O_NONBLOCK != 0) = false := by
      simp [land_not32_O_NONBLOCK arg]
    have hctx : (fcntl_hook true (some c) kf F_SETFL (arg &&& not32 O_NONBLOCK)).ctx
        = some (c.setUserNonblock false) := by
      rw [fcntl_setfl_ctx c kf _ h1 h2, hb]
    rw [hctx, fcntl_getfl_bit (c.setUserNonblock false) kf2 h1 h2]
    simp [FdCtx.setUserNonblock]

/-- C7, witness: kernel flags kf2 = mask32 (every kernel bit set, including
O_NONBLOCK) still yield an O_NONBLOCK-clear F_GETFL answer after the user
cleared the flag. -/
theorem C7_fcntl_witness :
    ((fcntl_hook true (fcntl_hook true (some ctx0) 0 F_SETFL (0 ||| O_NONBLOCK)).ctx
        mask32 F_GETFL 0).ret.toNat &&& O_NONBLOCK ≠ 0) ∧
    ((fcntl_hook true (fcntl_hook true (some ctx0) 0 F_SETFL (0 &&& not32 O_NONBLOCK)).ctx
        mask32 F_GETFL 0).ret.toNat &&& O_NONBLOCK = 0) :=
  C7_fcntl_thm ctx0 0 0 mask32 rfl rfl

end SylarHook
